import Mathlib

/-!
Formal model of the evotor loyalty bot's points ledger (src/bot.py).

Embedding conventions:
* SQLite tables become Lean lists: `users : List User`, `transactions : List Txn`,
  with the AUTOINCREMENT primary key of `users` modelled by a `next_user_id` counter.
  A SQL UPDATE ... WHERE is a `List.map` that rewrites exactly the matching rows,
  a SELECT ... fetchone is a `List.find?` (first matching row), and an INSERT is a
  list append.  Free-text description columns are informational only and omitted.
* Python floats (purchase amounts, rates, discounts) are modelled by exact rational
  arithmetic over `ℚ`; `LOYALTY_SETTINGS` values 0.05 / 0.01 / 50 become 5/100,
  1/100, 50.  On every concrete input appearing in the claims (1500.00, 1000.00,
  6000 points, and the clamp bound 1000*50/100/0.01) the double-precision result of
  the Python expression is exactly the rational value, so nothing is lost there.
  Python `int(x)` truncates toward zero and is modelled by `pyInt`.
* Python exceptions that escape a `LoyaltyDB` method (e.g. `fetchone()[0]` on an
  absent row raising TypeError) are modelled by `Except.error ()`; where the
  exception fires after `conn.commit()` the returned state keeps the committed
  writes, exactly as the sqlite file would.
* `hashlib.md5` is implemented bit-for-bit (32-bit words as `Nat` mod 2^32); the
  implementation agrees with the RFC 1321 test vectors.
* The webhook handler's dynamic JSON payload is modelled by the `JVal` tree;
  `dict.get` on a non-dict raises (AttributeError), modelled in the `Except` monad,
  and Python truthiness of extracted fields is `truthy`.  `float(str)` is modelled
  for plain decimal literals (optional sign, digits, optional fraction part), which
  covers every payload the claims mention; exotic accepted spellings such as
  exponents are out of the model and would only enlarge the set of parsing inputs.
-/

/-- Python `int(q)` on an exact rational: truncation toward zero. -/
def pyInt (q : ℚ) : Int := if 0 ≤ q then q.floor else -(-q).floor

/-- `LOYALTY_SETTINGS['points_per_purchase'] = 0.05` (5% of each purchase). -/
def points_per_purchase : ℚ := 5 / 100

/-- `LOYALTY_SETTINGS['discount_per_point'] = 0.01` (1% discount per point). -/
def discount_per_point : ℚ := 1 / 100

/-- `LOYALTY_SETTINGS['max_discount'] = 50`. -/
def max_discount : ℚ := 50

/-- `LOYALTY_SETTINGS['welcome_bonus'] = 100`. -/
def welcome_bonus : Int := 100

/-- `LOYALTY_SETTINGS['birthday_bonus'] = 500` (unused by the ledger operations). -/
def birthday_bonus : Int := 500

/- ===== hashlib.md5, used by generate_qr_code ===== -/

/-- Reduce to a 32-bit word. -/
def w32 (n : Nat) : Nat := n % 4294967296

/-- 32-bit addition. -/
def wadd (a b : Nat) : Nat := w32 (a + b)

/-- 32-bit complement. -/
def wnot (a : Nat) : Nat := 4294967295 - w32 a

/-- 32-bit left rotation. -/
def rotl (x s : Nat) : Nat := w32 (x <<< s) ||| (w32 x >>> (32 - s))

/-- The 64 MD5 sine-table constants of RFC 1321. -/
def md5K : List Nat :=
  [0xd76aa478, 0xe8c7b756, 0x242070db, 0xc1bdceee,
   0xf57c0faf, 0x4787c62a, 0xa8304613, 0xfd469501,
   0x698098d8, 0x8b44f7af, 0xffff5bb1, 0x895cd7be,
   0x6b901122, 0xfd987193, 0xa679438e, 0x49b40821,
   0xf61e2562, 0xc040b340, 0x265e5a51, 0xe9b6c7aa,
   0xd62f105d, 0x02441453, 0xd8a1e681, 0xe7d3fbc8,
   0x21e1cde6, 0xc33707d6, 0xf4d50d87, 0x455a14ed,
   0xa9e3e905, 0xfcefa3f8, 0x676f02d9, 0x8d2a4c8a,
   0xfffa3942, 0x8771f681, 0x6d9d6122, 0xfde5380c,
   0xa4beea44, 0x4bdecfa9, 0xf6bb4b60, 0xbebfbc70,
   0x289b7ec6, 0xeaa127fa, 0xd4ef3085, 0x04881d05,
   0xd9d4d039, 0xe6db99e5, 0x1fa27cf8, 0xc4ac5665,
   0xf4292244, 0x432aff97, 0xab9423a7, 0xfc93a039,
   0x655b59c3, 0x8f0ccc92, 0xffeff47d, 0x85845dd1,
   0x6fa87e4f, 0xfe2ce6e0, 0xa3014314, 0x4e0811a1,
   0xf7537e82, 0xbd3af235, 0x2ad7d2bb, 0xeb86d391]

/-- The 64 MD5 per-round left-rotation amounts. -/
def md5S : List Nat :=
  [7, 12, 17, 22, 7, 12, 17, 22, 7, 12, 17, 22, 7, 12, 17, 22,
   5, 9, 14, 20, 5, 9, 14, 20, 5, 9, 14, 20, 5, 9, 14, 20,
   4, 11, 16, 23, 4, 11, 16, 23, 4, 11, 16, 23, 4, 11, 16, 23,
   6, 10, 15, 21, 6, 10, 15, 21, 6, 10, 15, 21, 6, 10, 15, 21]

/-- One MD5 round, acting on the state (a, b, c, d). -/
def md5Step (Mw : List Nat) (st : Nat × Nat × Nat × Nat) (i : Nat) : Nat × Nat × Nat × Nat :=
  let a := st.1; let b := st.2.1; let c := st.2.2.1; let d := st.2.2.2
  let fg : Nat × Nat :=
    if i < 16 then ((b &&& c) ||| (wnot b &&& d), i)
    else if i < 32 then ((b &&& d) ||| (c &&& wnot d), (5 * i + 1) % 16)
    else if i < 48 then (b ^^^ c ^^^ d, (3 * i + 5) % 16)
    else (c ^^^ (b ||| wnot d), (7 * i) % 16)
  let tmp := wadd (wadd (wadd a fg.1) (md5K.getD i 0)) (Mw.getD fg.2 0)
  (d, wadd b (rotl tmp (md5S.getD i 0)), b, c)

/-- Process one 64-byte MD5 block. -/
def md5Block (st : Nat × Nat × Nat × Nat) (block : List Nat) : Nat × Nat × Nat × Nat :=
  let Mw := (List.range 16).map fun j =>
    block.getD (4 * j) 0 + 256 * block.getD (4 * j + 1) 0 +
      65536 * block.getD (4 * j + 2) 0 + 16777216 * block.getD (4 * j + 3) 0
  let r := (List.range 64).foldl (md5Step Mw) st
  (wadd st.1 r.1, wadd st.2.1 r.2.1, wadd st.2.2.1 r.2.2.1, wadd st.2.2.2 r.2.2.2)

/-- MD5 padding: 0x80, zeros to 56 mod 64, 8-byte little-endian bit length. -/
def md5Pad (msg : List Nat) : List Nat :=
  let bitLen := 8 * msg.length
  let zeros := (119 - msg.length % 64) % 64
  msg ++ 0x80 :: List.replicate zeros 0 ++ (List.range 8).map fun i => (bitLen >>> (8 * i)) % 256

/-- MD5 digest of a byte sequence, as 16 bytes. -/
def md5Digest (msg : List Nat) : List Nat :=
  let padded := md5Pad msg
  let blocks := (List.range (padded.length / 64)).map fun i => (padded.drop (64 * i)).take 64
  let r := blocks.foldl md5Block (0x67452301, 0xefcdab89, 0x98badcfe, 0x10325476)
  ((List.range 4).map fun i => (r.1 >>> (8 * i)) % 256) ++
    ((List.range 4).map fun i => (r.2.1 >>> (8 * i)) % 256) ++
    ((List.range 4).map fun i => (r.2.2.1 >>> (8 * i)) % 256) ++
    ((List.range 4).map fun i => (r.2.2.2 >>> (8 * i)) % 256)

/-- Lowercase hexadecimal digit. -/
def hexDigitChar (n : Nat) : Char := if n < 10 then Char.ofNat (48 + n) else Char.ofNat (87 + n)

/-- `hashlib.md5(msg).hexdigest()` as a character list. -/
def md5HexChars (msg : List Nat) : List Char :=
  ((md5Digest msg).map fun b => [hexDigitChar (b / 16), hexDigitChar (b % 16)]).flatten

/- ===== str(user_id) and generate_qr_code ===== -/

/-- The decimal digit character of `d` (for `d < 10`). -/
def decDigitChar (d : Nat) : Char := Char.ofNat (48 + d)

/-- Decimal printing with explicit fuel (structural recursion, most significant first). -/
def decCharsFuel : Nat → Nat → List Char
  | 0, _ => []
  | fuel + 1, n =>
    if n < 10 then [decDigitChar n]
    else decCharsFuel fuel (n / 10) ++ [decDigitChar (n % 10)]

/-- Python `str(n)` for a natural number: its decimal digits. -/
def decChars (n : Nat) : List Char := decCharsFuel (n + 1) n

/-- Python `str.zfill(3)`: left-pad with zeros to at least three characters. -/
def zfill3 (l : List Char) : List Char := List.replicate (3 - l.length) '0' ++ l

/-- The characters of the public code of `generate_qr_code`. -/
def qrChars (user_id : Nat) : List Char :=
  zfill3 (decChars user_id) ++ '-' :: (md5HexChars ((decChars user_id).map Char.toNat)).take 3

/-- `LoyaltyDB.generate_qr_code`: the XXX-XXX public code,
zero-padded decimal id, a dash, and the first three hex digits of md5(str(id)). -/
def generate_qr_code (user_id : Nat) : String := String.mk (qrChars user_id)

/-- Numeric value of a digit string (used only in proofs, to invert the code). -/
def decimalVal (l : List Char) : Nat := l.foldl (fun a c => 10 * a + (c.toNat - 48)) 0

/-- Recover the account id from a public code: value of the digits before the dash. -/
def decodeQr (s : String) : Nat := decimalVal (s.data.takeWhile Char.isDigit)

/- ===== the users and transactions tables ===== -/

/-- One row of the `users` table. -/
structure User where
  user_id : Nat
  telegram_id : Int
  name : Option String
  phone : Option String
  gender : Option String
  total_purchases : ℚ
  total_points : Int
  current_points : Int
  qr_code : Option String
  is_active : Bool
deriving DecidableEq

/-- One row of the `transactions` table (free-text description omitted). -/
structure Txn where
  user_id : Nat
  type : String
  amount : Option ℚ
  points_change : Int
deriving DecidableEq

/-- The database state: both tables plus the AUTOINCREMENT counter for user_id. -/
structure DB where
  users : List User
  txns : List Txn
  next_user_id : Nat
deriving DecidableEq

/-- A freshly initialised database. -/
def initDB : DB := ⟨[], [], 1⟩

/-- `SELECT ... FROM users WHERE user_id = ?` then fetchone (no is_active filter). -/
def findByUserId (s : DB) (uid : Nat) : Option User :=
  s.users.find? fun v => v.user_id == uid

/-- `SELECT user_id, qr_code FROM users WHERE telegram_id = ?` then fetchone
(as in add_user: no is_active filter). -/
def findByTelegramId (s : DB) (tid : Int) : Option User :=
  s.users.find? fun v => v.telegram_id == tid

/-- `UPDATE users SET ... WHERE <pred>`: rewrite exactly the matching rows. -/
def updateWhere (l : List User) (pred : User → Bool) (g : User → User) : List User :=
  l.map fun v => if pred v then g v else v

/-- Python `existing[1] or self.generate_qr_code(existing[0])`: a NULL or empty
stored code falls back to the generated one. -/
def pyOrStr (o : Option String) (d : String) : String :=
  match o with
  | some s => if s.data.isEmpty then d else s
  | none => d

/-- `LoyaltyDB.add_user`: return the existing row's (user_id, qr_code) if the
telegram_id is already present; otherwise insert a user whose current_points is
the welcome bonus (total_points stays at its column default 0), set its qr code,
and insert the bonus transaction. -/
def add_user (s : DB) (tid : Int) (name phone gender : Option String) :
    (Nat × String) × DB :=
  match findByTelegramId s tid with
  | some u => ((u.user_id, pyOrStr u.qr_code (generate_qr_code u.user_id)), s)
  | none =>
    let uid := s.next_user_id
    let qr := generate_qr_code uid
    let newUser : User :=
      { user_id := uid, telegram_id := tid, name := name, phone := phone, gender := gender,
        total_purchases := 0, total_points := 0, current_points := welcome_bonus,
        qr_code := some qr, is_active := true }
    ((uid, qr),
     { users := s.users ++ [newUser],
       txns := s.txns ++ [{ user_id := uid, type := "bonus", amount := none,
                            points_change := welcome_bonus }],
       next_user_id := uid + 1 })

/-- `LoyaltyDB.get_user_by_qr`: lookup by qr code, active rows only. -/
def get_user_by_qr (s : DB) (qr : String) : Option User :=
  s.users.find? fun v => v.qr_code == some qr && v.is_active

/-- `LoyaltyDB.add_purchase_by_qr`: None when the code matches no active user;
otherwise credit earned points (UPDATE ... WHERE qr_code = ?), insert the purchase
transaction, and return (telegram_id, earned, new balance).  The inner `none`
branch of the final balance read is unreachable: the updated table still holds
the row found by the lookup. -/
def add_purchase_by_qr (s : DB) (qr : String) (amount : ℚ) :
    Option (Int × Int × Int) × DB :=
  match get_user_by_qr s qr with
  | none => (none, s)
  | some u =>
    let earned := pyInt (amount * points_per_purchase)
    let s' : DB :=
      { s with
        users := updateWhere s.users (fun v => v.qr_code == some qr) fun v =>
          { v with total_purchases := v.total_purchases + amount,
                   total_points := v.total_points + earned,
                   current_points := v.current_points + earned },
        txns := s.txns ++ [{ user_id := u.user_id, type := "purchase",
                             amount := some amount, points_change := earned }] }
    ((match findByUserId s' u.user_id with
      | some v => some (u.telegram_id, earned, v.current_points)
      | none => none), s')

/-- `LoyaltyDB.add_purchase`: no existence check — the UPDATE silently touches
zero rows for an unknown id, the transaction row is inserted and committed
unconditionally, and only the final balance read fails (TypeError from
`fetchone()[0]`, modelled as `Except.error ()` with the committed state kept). -/
def add_purchase (s : DB) (uid : Nat) (amount : ℚ) :
    Except Unit (Int × Int) × DB :=
  let points_earned := pyInt (amount * points_per_purchase)
  let s' : DB :=
    { s with
      users := updateWhere s.users (fun v => v.user_id == uid) fun v =>
        { v with total_purchases := v.total_purchases + amount,
                 total_points := v.total_points + points_earned,
                 current_points := v.current_points + points_earned },
      txns := s.txns ++ [{ user_id := uid, type := "purchase",
                           amount := some amount, points_change := points_earned }] }
  ((match findByUserId s' uid with
    | some v => Except.ok (points_earned, v.current_points)
    | none => Except.error ()), s')

/-- Python truthiness of the optional purchase_amount argument
(`if purchase_amount:`): absent or zero is falsy. -/
def amtTruthy (amt : Option ℚ) : Bool :=
  match amt with
  | none => false
  | some q => q != 0

/-- The `max_points_for_discount` local of spend_points:
`int(purchase_amount * max_discount / 100 / discount_per_point)` when a truthy
purchase amount is given, and its initial value 0 otherwise. -/
def max_points_for_discount (amt : Option ℚ) : Int :=
  if amtTruthy amt then pyInt (amt.getD 0 * max_discount / 100 / discount_per_point) else 0

/-- The points actually spent after the clamp
(`if purchase_amount and points_to_spend > max_points_for_discount`). -/
def clampedPoints (amt : Option ℚ) (pts : Int) : Int :=
  if amtTruthy amt ∧ max_points_for_discount amt < pts then max_points_for_discount amt
  else pts

/-- The discount returned by spend_points: `points_to_spend * discount_per_point`,
additionally capped at max_discount only when a truthy purchase amount is given. -/
def discountFor (amt : Option ℚ) (pts : Int) : ℚ :=
  if amtTruthy amt then min ((pts : ℚ) * discount_per_point) max_discount
  else (pts : ℚ) * discount_per_point

/-- `LoyaltyDB.spend_points`: read the balance (TypeError on an absent row),
return (False, balance, 0.0) when the balance is below the request — before any
clamping — and otherwise clamp, compute the discount, decrement the balance,
insert the spend transaction, and return (True, new balance, discount). -/
def spend_points (s : DB) (uid : Nat) (pts : Int) (amt : Option ℚ) :
    Except Unit (Bool × Int × ℚ) × DB :=
  match findByUserId s uid with
  | none => (Except.error (), s)
  | some u =>
    if u.current_points < pts then (Except.ok (false, u.current_points, 0), s)
    else
      let pts' := clampedPoints amt pts
      let s' : DB :=
        { s with
          users := updateWhere s.users (fun v => v.user_id == uid) fun v =>
            { v with current_points := v.current_points - pts' },
          txns := s.txns ++ [{ user_id := uid, type := "spend", amount := none,
                               points_change := -pts' }] }
      ((match findByUserId s' uid with
        | some v => Except.ok (true, v.current_points, discountFor amt pts')
        | none => Except.error ()), s')

/-- `LoyaltyDB.update_user_points`: UPDATE (zero rows for an unknown id) plus an
unconditional transaction insert; returns True (only storage failures, outside
the model, give False). -/
def update_user_points (s : DB) (uid : Nat) (points : Int) : Bool × DB :=
  (true,
   { s with
     users := updateWhere s.users (fun v => v.user_id == uid) fun v =>
       { v with current_points := v.current_points + points,
                total_points := v.total_points + max 0 points },
     txns := s.txns ++ [{ user_id := uid, type := "admin", amount := none,
                          points_change := points }] })

/- ===== the reachable ledger states ===== -/

/-- The five balance-mutating operations of the claims. -/
inductive Op where
  | register (tid : Int) (name phone gender : Option String)
  | purchase (uid : Nat) (amount : ℚ)
  | purchaseByQr (qr : String) (amount : ℚ)
  | spend (uid : Nat) (pts : Int) (amt : Option ℚ)
  | adjust (uid : Nat) (pts : Int)

/-- The guards the bot's handlers place in front of the raw operations:
add_purchase and update_user_points are only ever invoked on an id the handler
has just looked up (get_user_info / get_user_by_id). -/
def guardOk (s : DB) : Op → Bool
  | Op.purchase uid _ => s.users.any fun u => u.user_id == uid
  | Op.adjust uid _ => s.users.any fun u => u.user_id == uid
  | _ => true

/-- The database produced by one operation. -/
def applyOp (s : DB) : Op → DB
  | Op.register tid n p g => (add_user s tid n p g).2
  | Op.purchase uid a => (add_purchase s uid a).2
  | Op.purchaseByQr qr a => (add_purchase_by_qr s qr a).2
  | Op.spend uid pts amt => (spend_points s uid pts amt).2
  | Op.adjust uid pts => (update_user_points s uid pts).2

/-- States reachable from the fresh database by guarded operations. -/
inductive Reachable : DB → Prop where
  | init : Reachable initDB
  | step {s : DB} (h : Reachable s) (op : Op) (hg : guardOk s op = true) :
      Reachable (applyOp s op)

/-- Sum of points_change over all transactions of one account. -/
def txnSum (txns : List Txn) (uid : Nat) : Int :=
  ((txns.filter fun t => t.user_id == uid).map Txn.points_change).sum

/- ===== the webhook payload model ===== -/

/-- A JSON-like payload value. -/
inductive JVal where
  | null
  | bool (b : Bool)
  | num (q : ℚ)
  | str (s : String)
  | arr (elems : List JVal)
  | obj (fields : List (String × JVal))

/-- Python truthiness of a payload value. -/
def truthy : JVal → Bool
  | JVal.null => false
  | JVal.bool b => b
  | JVal.num q => q != 0
  | JVal.str s => !s.data.isEmpty
  | JVal.arr elems => !elems.isEmpty
  | JVal.obj fields => !fields.isEmpty

/-- First value bound to a key in an object's field list. -/
def lookupField : List (String × JVal) → String → Option JVal
  | [], _ => none
  | (k, v) :: rest, key => if k == key then some v else lookupField rest key

/-- Python `x.get(key)`: None (here `JVal.null`) when the key is absent,
AttributeError (here `Except.error ()`) when `x` is not a dict. -/
def dictGet : JVal → String → Except Unit JVal
  | JVal.obj fields, key => Except.ok ((lookupField fields key).getD JVal.null)
  | _, _ => Except.error ()

/-- Value of a nonempty digit list as an exact rational. -/
def digitsValQ (l : List Char) : ℚ := (decimalVal l : ℚ)

/-- Python `float(s)` on an unsigned decimal literal: digits with an optional
single point, at least one digit overall. -/
def parseUnsigned (cs : List Char) : Option ℚ :=
  let intPart := cs.takeWhile Char.isDigit
  let rest := cs.dropWhile Char.isDigit
  match rest with
  | [] => if intPart.isEmpty then none else some (digitsValQ intPart)
  | '.' :: frac =>
    if frac.all Char.isDigit && !(intPart.isEmpty && frac.isEmpty) then
      some (digitsValQ intPart + digitsValQ frac / (10 : ℚ) ^ frac.length)
    else none
  | _ => none

/-- Python `float(s)` on a string, with an optional sign. -/
def pyFloatOfString (s : String) : Option ℚ :=
  match s.data with
  | '-' :: rest => (parseUnsigned rest).map fun q => -q
  | '+' :: rest => parseUnsigned rest
  | cs => parseUnsigned cs

/-- Python `float(total)` on the extracted payload value. -/
def pyFloat : JVal → Except Unit ℚ
  | JVal.num q => Except.ok q
  | JVal.bool b => Except.ok (if b then 1 else 0)
  | JVal.str s =>
    match pyFloatOfString s with
    | some q => Except.ok q
    | none => Except.error ()
  | _ => Except.error ()

/-- The field-guessing part of evotor_webhook: locate the receipt envelope, the
total, and the client code, in source order, with every or-chain short-circuit
and every potentially raising `.get` preserved. -/
def extractFields (data : JVal) : Except Unit (JVal × JVal) := do
  let d ← dictGet data "document"
  let receipt ←
    if truthy d then pure d
    else do
      let r ← dictGet data "receipt"
      pure (if truthy r then r else data)
  let t1 ← dictGet receipt "total"
  let total ←
    if truthy t1 then pure t1
    else do
      let t2 ← dictGet receipt "sum"
      if truthy t2 then pure t2 else dictGet receipt "amount"
  let e1 ← dictGet receipt "extra"
  let extra ←
    if truthy e1 then pure e1
    else do
      let e2 ← dictGet receipt "additional"
      pure (if truthy e2 then e2 else JVal.obj [])
  let c1 ← dictGet extra "clientCode"
  let q1 ←
    if truthy c1 then pure c1
    else do
      let c2 ← dictGet extra "qrCode"
      if truthy c2 then pure c2 else dictGet data "clientCode"
  let qr ←
    if truthy q1 then pure q1
    else do
      let c3 ← dictGet receipt "clientCode"
      if truthy c3 then pure c3 else dictGet data "clientCode"
  pure (total, qr)

/-- The structured result dict of the webhook endpoint. -/
inductive WebhookResult where
  | ok (points balance : Int)
  | ignored (message : String)
  | notFound (message : String)
  | error (message : String)
deriving DecidableEq

/-- The `/evotor/webhook` handler: extract fields (any exception gives the
catch-all error result), return ignored when the code or total is falsy, error
when the total fails float(), then record the purchase by code; the Telegram
notification side effect is external and does not alter the result. -/
def evotor_webhook (data : JVal) (s : DB) : WebhookResult × DB :=
  match extractFields data with
  | Except.error _ => (WebhookResult.error "exception", s)
  | Except.ok (total, qr) =>
    if !truthy qr || !truthy total then
      (WebhookResult.ignored "Missing QR code or total", s)
    else
      match pyFloat total with
      | Except.error _ => (WebhookResult.error "Invalid total format", s)
      | Except.ok tf =>
        match (match qr with
               | JVal.str code => add_purchase_by_qr s code tf
               | _ => (none, s)) with
        | (none, s') => (WebhookResult.notFound "Client not found", s')
        | (some (_, earned, balance), s') => (WebhookResult.ok earned balance, s')

/- ===== auxiliary definitions for the verification ===== -/

/-- The inductive invariant carried over reachable states: ids are below the
AUTOINCREMENT counter (users and transactions), ids are pairwise distinct,
every stored code is the generated one, and every balance is the points_change
sum of the account's transactions. -/
def LedgerInv (s : DB) : Prop :=
  (∀ u ∈ s.users, u.user_id < s.next_user_id) ∧
  (∀ t ∈ s.txns, t.user_id < s.next_user_id) ∧
  (s.users.map User.user_id).Nodup ∧
  (∀ u ∈ s.users, u.qr_code = some (generate_qr_code u.user_id)) ∧
  (∀ u ∈ s.users, u.current_points = txnSum s.txns u.user_id)

/-- Concrete one-user state (balance 100) for the insufficient-balance witness. -/
def dbC2 : DB :=
  ⟨[⟨1, 7, none, none, none, 0, 100, 100, some "001-c4c", true⟩], [], 2⟩

/-- Concrete one-user state with balance 1000 for the redeem-clamp claim. -/
def dbC3 : DB :=
  ⟨[⟨1, 7, none, none, none, 0, 1000, 1000, some "001-c4c", true⟩], [], 2⟩

/-- Concrete state with one inactive user (balance 100) for the missing-account
behavior of add_purchase. -/
def dbC6 : DB :=
  ⟨[⟨1, 7, none, none, none, 0, 100, 100, some "001-c4c", false⟩], [], 2⟩

/-- Concrete one-user state with balance 0 for the earn-correctness witness. -/
def dbC7 : DB :=
  ⟨[⟨1, 7, none, none, none, 0, 0, 0, some "001-c4c", true⟩], [], 2⟩

/-- Concrete one-user state with balance 6000 for the uncapped-discount claim. -/
def dbC9 : DB :=
  ⟨[⟨1, 7, none, none, none, 0, 6000, 6000, some "001-c4c", true⟩], [], 2⟩

/-- Payload whose total is a non-numeric string but whose client code resolves. -/
def payloadC4 : JVal :=
  JVal.obj [("total", JVal.str "abc"), ("clientCode", JVal.str "001-c4c")]

/-- Payload carrying neither an amount nor a client code. -/
def payloadC4empty : JVal := JVal.obj []

/-- Payload whose extracted amount is the falsy number 0. -/
def payloadC10 : JVal :=
  JVal.obj [("amount", JVal.num 0), ("clientCode", JVal.str "x")]

/- ===== lemmas: decimal printing and injectivity of the public code ===== -/

theorem decDigitChar_toNat {d : Nat} (h : d < 10) : (decDigitChar d).toNat = 48 + d := by
  interval_cases d <;> rfl

theorem decDigitChar_isDigit {d : Nat} (h : d < 10) : (decDigitChar d).isDigit = true := by
  interval_cases d <;> rfl

theorem decimalVal_append (l : List Char) (c : Char) :
    decimalVal (l ++ [c]) = 10 * decimalVal l + (c.toNat - 48) := by
  simp [decimalVal, List.foldl_append]

theorem decCharsFuel_val : ∀ fuel n, n < fuel → decimalVal (decCharsFuel fuel n) = n := by
  intro fuel
  induction fuel with
  | zero => intro n hn; omega
  | succ fuel ih =>
    intro n hn
    by_cases h10 : n < 10
    · simp [decCharsFuel, h10, decimalVal, decDigitChar_toNat h10]
    · have hd : n / 10 < fuel := by omega
      have hm : n % 10 < 10 := Nat.mod_lt _ (by norm_num)
      rw [decCharsFuel, if_neg h10, decimalVal_append, ih _ hd, decDigitChar_toNat hm]
      omega

theorem decChars_val (n : Nat) : decimalVal (decChars n) = n :=
  decCharsFuel_val (n + 1) n (Nat.lt_succ_self n)

theorem decCharsFuel_digits : ∀ fuel n, ∀ c ∈ decCharsFuel fuel n, c.isDigit = true := by
  intro fuel
  induction fuel with
  | zero => intro n c hc; simp [decCharsFuel] at hc
  | succ fuel ih =>
    intro n c hc
    by_cases h10 : n < 10
    · rw [decCharsFuel, if_pos h10] at hc
      simp at hc
      subst hc
      exact decDigitChar_isDigit h10
    · rw [decCharsFuel, if_neg h10] at hc
      rcases List.mem_append.1 hc with hc | hc
      · exact ih _ _ hc
      · simp at hc
        subst hc
        exact decDigitChar_isDigit (Nat.mod_lt _ (by norm_num))

theorem foldl_zeros (k : Nat) :
    List.foldl (fun a c => 10 * a + (c.toNat - 48)) 0 (List.replicate k '0') = 0 := by
  induction k with
  | zero => rfl
  | succ k ih => simpa [List.replicate_succ] using ih

theorem decimalVal_zfill3 (l : List Char) : decimalVal (zfill3 l) = decimalVal l := by
  simp [zfill3, decimalVal, List.foldl_append, foldl_zeros]

theorem zfill3_digits {l : List Char} (h : ∀ c ∈ l, c.isDigit = true) :
    ∀ c ∈ zfill3 l, c.isDigit = true := by
  intro c hc
  rcases List.mem_append.1 hc with hc | hc
  · rw [List.eq_of_mem_replicate hc]; rfl
  · exact h c hc

theorem takeWhile_digits_append (A B : List Char)
    (hA : ∀ c ∈ A, c.isDigit = true) :
    (A ++ '-' :: B).takeWhile Char.isDigit = A := by
  induction A with
  | nil => rfl
  | cons a A ih =>
    have ha : a.isDigit = true := hA a (List.mem_cons_self a A)
    simp only [List.cons_append, List.takeWhile_cons, ha, if_true, List.cons.injEq, true_and]
    exact ih fun c hc => hA c (List.mem_cons_of_mem a hc)

theorem decodeQr_generate (n : Nat) : decodeQr (generate_qr_code n) = n := by
  have hdig : ∀ c ∈ zfill3 (decChars n), c.isDigit = true :=
    zfill3_digits fun c hc => decCharsFuel_digits _ _ c hc
  have h1 : (generate_qr_code n).data = zfill3 (decChars n) ++ '-' ::
      (md5HexChars ((decChars n).map Char.toNat)).take 3 := rfl
  rw [decodeQr, h1, takeWhile_digits_append _ _ hdig, decimalVal_zfill3, decChars_val]

theorem generate_qr_code_inj {a b : Nat} (h : generate_qr_code a = generate_qr_code b) :
    a = b := by
  have h' := congrArg decodeQr h
  rwa [decodeQr_generate, decodeQr_generate] at h'

theorem isEmpty_append_cons (l₁ l₂ : List Char) (c : Char) :
    (l₁ ++ c :: l₂).isEmpty = false := by
  cases l₁ <;> rfl

theorem generate_qr_code_data_nonempty (n : Nat) :
    (generate_qr_code n).data.isEmpty = false := by
  show (zfill3 (decChars n) ++ '-' ::
    (md5HexChars ((decChars n).map Char.toNat)).take 3).isEmpty = false
  exact isEmpty_append_cons _ _ _

theorem pyOrStr_generated (n : Nat) (d : String) :
    pyOrStr (some (generate_qr_code n)) d = generate_qr_code n := by
  simp [pyOrStr, generate_qr_code_data_nonempty]

/- ===== lemmas: transaction sums and row updates ===== -/

theorem txnSum_append (ts : List Txn) (t : Txn) (uid : Nat) :
    txnSum (ts ++ [t]) uid =
      txnSum ts uid + if t.user_id = uid then t.points_change else 0 := by
  by_cases h : t.user_id = uid <;> simp [txnSum, List.filter_append, h]

theorem txnSum_nil_of_fresh {ts : List Txn} {uid : Nat}
    (h : ∀ t ∈ ts, t.user_id ≠ uid) : txnSum ts uid = 0 := by
  have hf : ts.filter (fun t => t.user_id == uid) = [] := by
    rw [List.filter_eq_nil_iff]
    intro t ht
    simpa using h t ht
  simp [txnSum, hf]

theorem find?_updateWhere (l : List User) (k : Nat) (g : User → User)
    (hg : ∀ u, (g u).user_id = u.user_id) :
    (updateWhere l (fun v => v.user_id == k) g).find? (fun v => v.user_id == k) =
      (l.find? fun v => v.user_id == k).map g := by
  induction l with
  | nil => rfl
  | cons a l ih =>
    by_cases h : a.user_id = k
    · simp [updateWhere, List.find?_cons, h, hg]
    · simp only [updateWhere, List.map_cons] at ih ⊢
      rw [if_neg (by simpa using h)]
      rw [List.find?_cons, List.find?_cons]
      have hb : (a.user_id == k) = false := by simpa using h
      rw [hb]
      exact ih

theorem updateWhere_user_id (l : List User) (pred : User → Bool) (g : User → User)
    (hg : ∀ u, (g u).user_id = u.user_id) :
    (updateWhere l pred g).map User.user_id = l.map User.user_id := by
  induction l with
  | nil => rfl
  | cons a l ih =>
    by_cases h : pred a = true <;> simp [updateWhere, h, hg] at ih ⊢ <;> exact ih

theorem mem_updateWhere {l : List User} {pred : User → Bool} {g : User → User} {v : User}
    (hv : v ∈ updateWhere l pred g) :
    ∃ u ∈ l, v = if pred u then g u else u := by
  rcases List.mem_map.1 hv with ⟨u, hu, huv⟩
  exact ⟨u, hu, huv.symm⟩

theorem updateWhere_congr {l : List User} {p p' : User → Bool} (g : User → User)
    (h : ∀ v ∈ l, p v = p' v) : updateWhere l p g = updateWhere l p' g :=
  List.map_congr_left fun v hv => by rw [h v hv]

theorem ledgerInv_pointwise_update (s : DB) (uid : Nat) (d : Int) (g : User → User) (t : Txn)
    (hgid : ∀ v, (g v).user_id = v.user_id)
    (hgqr : ∀ v, (g v).qr_code = v.qr_code)
    (hgcp : ∀ v, (g v).current_points = v.current_points + d)
    (htid : t.user_id = uid) (htpc : t.points_change = d)
    (hltn : uid < s.next_user_id)
    (hinv : LedgerInv s) :
    LedgerInv { s with users := updateWhere s.users (fun v => v.user_id == uid) g,
                       txns := s.txns ++ [t] } := by
  obtain ⟨hub, htb, hnd, hqr, hsum⟩ := hinv
  refine ⟨?_, ?_, ?_, ?_, ?_⟩
  · intro v hv
    rcases mem_updateWhere hv with ⟨u, hu, rfl⟩
    by_cases h : (u.user_id == uid) = true
    · simpa [h, hgid] using hub u hu
    · simpa [h] using hub u hu
  · intro t' ht'
    rcases List.mem_append.1 ht' with ht' | ht'
    · exact htb t' ht'
    · simp at ht'
      subst ht'
      simpa [htid] using hltn
  · show ((updateWhere s.users (fun v => v.user_id == uid) g).map User.user_id).Nodup
    rw [updateWhere_user_id _ _ _ hgid]
    exact hnd
  · intro v hv
    rcases mem_updateWhere hv with ⟨u, hu, rfl⟩
    by_cases h : (u.user_id == uid) = true
    · simpa [h, hgid, hgqr] using hqr u hu
    · simpa [h] using hqr u hu
  · intro v hv
    rcases mem_updateWhere hv with ⟨u, hu, rfl⟩
    by_cases h : (u.user_id == uid) = true
    · have huid : u.user_id = uid := by simpa using h
      rw [if_pos h]
      show (g u).current_points = txnSum (s.txns ++ [t]) (g u).user_id
      rw [hgcp, hgid, txnSum_append, if_pos (htid.trans huid.symm), htpc, hsum u hu]
    · have huid : ¬u.user_id = uid := by simpa using h
      rw [if_neg h]
      show u.current_points = txnSum (s.txns ++ [t]) u.user_id
      rw [txnSum_append, if_neg (fun hh => huid (hh.symm.trans htid)), add_zero]
      exact hsum u hu

theorem ledgerInv_init : LedgerInv initDB := by
  refine ⟨?_, ?_, ?_, ?_, ?_⟩ <;> simp [initDB]

theorem ledgerInv_step (s : DB) (op : Op) (hinv : LedgerInv s) (hg : guardOk s op = true) :
    LedgerInv (applyOp s op) := by
  obtain ⟨hub, htb, hnd, hqr, hsum⟩ := hinv
  cases op with
  | register tid n p g =>
    rcases hfind : findByTelegramId s tid with _ | u
    · have happ : applyOp s (Op.register tid n p g) =
          { users := s.users ++
              [{ user_id := s.next_user_id, telegram_id := tid,
                 name := n, phone := p, gender := g, total_purchases := 0,
                 total_points := 0, current_points := welcome_bonus,
                 qr_code := some (generate_qr_code s.next_user_id), is_active := true }],
            txns := s.txns ++
              [{ user_id := s.next_user_id, type := "bonus", amount := none,
                 points_change := welcome_bonus }],
            next_user_id := s.next_user_id + 1 } := by
        simp [applyOp, add_user, hfind]
      rw [happ]
      refine ⟨?_, ?_, ?_, ?_, ?_⟩
      · intro u hu
        rcases List.mem_append.1 hu with hu | hu
        · exact Nat.lt_succ_of_lt (hub u hu)
        · simp at hu
          subst hu
          exact Nat.lt_succ_self _
      · intro t ht
        rcases List.mem_append.1 ht with ht | ht
        · exact Nat.lt_succ_of_lt (htb t ht)
        · simp at ht
          subst ht
          exact Nat.lt_succ_self _
      · rw [List.map_append]
        refine List.Nodup.append hnd (by simp) ?_
        intro x hx hx'
        simp at hx'
        rcases List.mem_map.1 hx with ⟨u, hu, hux⟩
        rw [hx'] at hux
        exact absurd hux (Nat.ne_of_lt (hub u hu))
      · intro u hu
        rcases List.mem_append.1 hu with hu | hu
        · exact hqr u hu
        · simp at hu
          subst hu
          rfl
      · intro u hu
        rcases List.mem_append.1 hu with hu | hu
        · rw [txnSum_append, if_neg (Nat.ne_of_gt (hub u hu)), add_zero]
          exact hsum u hu
        · simp at hu
          subst hu
          rw [txnSum_append]
          show welcome_bonus = txnSum s.txns s.next_user_id +
            if s.next_user_id = s.next_user_id then welcome_bonus else 0
          rw [if_pos rfl, txnSum_nil_of_fresh fun t ht => Nat.ne_of_lt (htb t ht), zero_add]
    · have happ : applyOp s (Op.register tid n p g) = s := by
        simp [applyOp, add_user, hfind]
      rw [happ]
      exact ⟨hub, htb, hnd, hqr, hsum⟩
  | purchase uid a =>
    obtain ⟨u, hu, huid⟩ : ∃ u ∈ s.users, u.user_id = uid := by
      simpa [guardOk] using hg
    have happ : applyOp s (Op.purchase uid a) =
        { s with
          users := updateWhere s.users (fun v => v.user_id == uid) fun v =>
            { v with total_purchases := v.total_purchases + a,
                     total_points := v.total_points + pyInt (a * points_per_purchase),
                     current_points := v.current_points + pyInt (a * points_per_purchase) },
          txns := s.txns ++
            [{ user_id := uid, type := "purchase", amount := some a,
               points_change := pyInt (a * points_per_purchase) }] } := by
      simp [applyOp, add_purchase]
    rw [happ]
    exact ledgerInv_pointwise_update s uid (pyInt (a * points_per_purchase)) _ _
      (fun v => rfl) (fun v => rfl) (fun v => rfl) rfl rfl
      (huid ▸ hub u hu) ⟨hub, htb, hnd, hqr, hsum⟩
  | purchaseByQr qr a =>
    rcases hq : get_user_by_qr s qr with _ | u
    · have happ : applyOp s (Op.purchaseByQr qr a) = s := by
        simp [applyOp, add_purchase_by_qr, hq]
      rw [happ]
      exact ⟨hub, htb, hnd, hqr, hsum⟩
    · have hq' : s.users.find? (fun v => v.qr_code == some qr && v.is_active) = some u := hq
      have hu : u ∈ s.users := List.mem_of_find?_eq_some hq'
      have huqr : u.qr_code = some qr := by
        have hupred := List.find?_some hq'
        simp at hupred
        exact hupred.1
      have hqr_eq : qr = generate_qr_code u.user_id := by
        have h' := (hqr u hu).symm.trans huqr
        simpa using h'.symm
      have hcong : ∀ v ∈ s.users,
          (v.qr_code == some qr) = (v.user_id == u.user_id) := by
        intro v hv
        by_cases h : v.user_id = u.user_id
        · have hveq : v = u := List.inj_on_of_nodup_map hnd hv hu h
          subst hveq
          simp [huqr, h]
        · have hvqr : v.qr_code = some (generate_qr_code v.user_id) := hqr v hv
          have hne : v.qr_code ≠ some qr := by
            rw [hvqr, hqr_eq]
            intro hh
            simp at hh
            exact h (generate_qr_code_inj hh)
          simp [hne, h]
      have happ : applyOp s (Op.purchaseByQr qr a) =
          { s with
            users := updateWhere s.users (fun v => v.qr_code == some qr) fun v =>
              { v with total_purchases := v.total_purchases + a,
                       total_points := v.total_points + pyInt (a * points_per_purchase),
                       current_points := v.current_points + pyInt (a * points_per_purchase) },
            txns := s.txns ++
              [{ user_id := u.user_id, type := "purchase", amount := some a,
                 points_change := pyInt (a * points_per_purchase) }] } := by
        simp [applyOp, add_purchase_by_qr, hq]
      rw [happ, updateWhere_congr _ hcong]
      exact ledgerInv_pointwise_update s u.user_id (pyInt (a * points_per_purchase)) _ _
        (fun v => rfl) (fun v => rfl) (fun v => rfl) rfl rfl
        (hub u hu) ⟨hub, htb, hnd, hqr, hsum⟩
  | spend uid pts amt =>
    rcases hfind : findByUserId s uid with _ | u
    · have happ : applyOp s (Op.spend uid pts amt) = s := by
        simp [applyOp, spend_points, hfind]
      rw [happ]
      exact ⟨hub, htb, hnd, hqr, hsum⟩
    · have hfind' : s.users.find? (fun v => v.user_id == uid) = some u := hfind
      have hu : u ∈ s.users := List.mem_of_find?_eq_some hfind'
      have huid : u.user_id = uid := by
        have h' := List.find?_some hfind'
        simpa using h'
      by_cases hlt : u.current_points < pts
      · have happ : applyOp s (Op.spend uid pts amt) = s := by
          simp [applyOp, spend_points, hfind, hlt]
        rw [happ]
        exact ⟨hub, htb, hnd, hqr, hsum⟩
      · have happ : applyOp s (Op.spend uid pts amt) =
            { s with
              users := updateWhere s.users (fun v => v.user_id == uid) fun v =>
                { v with current_points := v.current_points - clampedPoints amt pts },
              txns := s.txns ++
                [{ user_id := uid, type := "spend", amount := none,
                   points_change := -clampedPoints amt pts }] } := by
          simp [applyOp, spend_points, hfind, hlt]
        rw [happ]
        exact ledgerInv_pointwise_update s uid (-clampedPoints amt pts) _ _
          (fun v => rfl) (fun v => rfl) (fun v => sub_eq_add_neg _ _) rfl rfl
          (huid ▸ hub u hu) ⟨hub, htb, hnd, hqr, hsum⟩
  | adjust uid pts =>
    obtain ⟨u, hu, huid⟩ : ∃ u ∈ s.users, u.user_id = uid := by
      simpa [guardOk] using hg
    have happ : applyOp s (Op.adjust uid pts) =
        { s with
          users := updateWhere s.users (fun v => v.user_id == uid) fun v =>
            { v with current_points := v.current_points + pts,
                     total_points := v.total_points + max 0 pts },
          txns := s.txns ++
            [{ user_id := uid, type := "admin", amount := none,
               points_change := pts }] } := by
      simp [applyOp, update_user_points]
    rw [happ]
    exact ledgerInv_pointwise_update s uid pts _ _
      (fun v => rfl) (fun v => rfl) (fun v => rfl) rfl rfl
      (huid ▸ hub u hu) ⟨hub, htb, hnd, hqr, hsum⟩

theorem ledgerInv_of_reachable {s : DB} (h : Reachable s) : LedgerInv s := by
  induction h with
  | init => exact ledgerInv_init
  | step h op hg ih => exact ledgerInv_step _ op ih hg

theorem rat_floor_eq_int_floor (q : ℚ) : q.floor = ⌊q⌋ :=
  (Rat.floor_def' q).trans Rat.floor_def.symm

theorem pyInt_eq_floor {q : ℚ} (h : 0 ≤ q) : pyInt q = ⌊q⌋ :=
  (if_pos h).trans (rat_floor_eq_int_floor q)

theorem pyInt_intCast (n : ℤ) : pyInt ((n : ℤ) : ℚ) = n := by
  by_cases h : (0 : ℚ) ≤ (n : ℚ)
  · rw [pyInt, if_pos h, rat_floor_eq_int_floor, Int.floor_intCast]
  · rw [pyInt, if_neg h]
    rw [show -((n : ℤ) : ℚ) = ((-n : ℤ) : ℚ) by push_cast; ring]
    rw [rat_floor_eq_int_floor, Int.floor_intCast, neg_neg]

theorem pyInt_eval {q : ℚ} {n : ℤ} (h : q = (n : ℚ)) : pyInt q = n := by
  rw [h, pyInt_intCast]

theorem spend_points_fst_success (s : DB) (uid : Nat) (pts : Int) (amt : Option ℚ) (u : User)
    (hf : findByUserId s uid = some u) (hge : pts ≤ u.current_points) :
    (spend_points s uid pts amt).1 =
      Except.ok (true, u.current_points - clampedPoints amt pts,
        discountFor amt (clampedPoints amt pts)) := by
  have hnlt : ¬u.current_points < pts := not_lt.2 hge
  have hf' : s.users.find? (fun v => v.user_id == uid) = some u := hf
  have hfind2 : (updateWhere s.users (fun v => v.user_id == uid) fun v =>
      { v with current_points := v.current_points - clampedPoints amt pts }).find?
        (fun v => v.user_id == uid) =
      some { u with current_points := u.current_points - clampedPoints amt pts } := by
    rw [find?_updateWhere s.users uid
      (fun v => { v with current_points := v.current_points - clampedPoints amt pts })
      fun v => rfl]
    rw [hf']
    rfl
  simp [spend_points, hf', hnlt, findByUserId, hfind2]

/- ===== the claims ===== -/

/-- C1 (amended): for every state reachable by guarded operations (add_purchase and
update_user_points invoked on an existing account, as the bot's handlers do), every
account's balance equals the sum of points_change over its transactions.  The two
bounds of the original claim, 0 ≤ balance and balance ≤ total_points, do not hold on
the code and are refuted separately. -/
theorem reachable_balance_eq_txn_sum {s : DB} (h : Reachable s) :
    ∀ u ∈ s.users, u.current_points = txnSum s.txns u.user_id :=
  (ledgerInv_of_reachable h).2.2.2.2

/-- C1 witness: the state after one registration is reachable and satisfies the
balance-equals-transaction-sum property. -/
theorem reachable_balance_eq_txn_sum_witness :
    Reachable (applyOp initDB (Op.register 7 none none none)) ∧
    ∀ u ∈ (applyOp initDB (Op.register 7 none none none)).users,
      u.current_points =
        txnSum (applyOp initDB (Op.register 7 none none none)).txns u.user_id :=
  ⟨Reachable.step Reachable.init (Op.register 7 none none none) rfl,
   reachable_balance_eq_txn_sum
     (Reachable.step Reachable.init (Op.register 7 none none none) rfl)⟩

/-- C1 counterexample: registering and then administratively adjusting the account
by -200 is a reachable behavior that produces balance -100 with total_points 0, so
neither 0 ≤ balance nor balance ≤ total_points holds for all reachable states (the
welcome bonus is credited to current_points only, and update_user_points never
checks the resulting balance). -/
theorem balance_invariant_counterexample :
    Reachable (applyOp (applyOp initDB (Op.register 7 none none none))
      (Op.adjust 1 (-200))) ∧
    ∃ u ∈ (applyOp (applyOp initDB (Op.register 7 none none none))
      (Op.adjust 1 (-200))).users,
      ¬(0 ≤ u.current_points ∧ u.current_points ≤ u.total_points) := by
  constructor
  · exact Reachable.step
      (Reachable.step Reachable.init (Op.register 7 none none none) rfl)
      (Op.adjust 1 (-200)) (by decide)
  · decide

/-- C2: when the requested points exceed the current balance, spend_points returns
the failure triple (False, balance, 0.0) without touching the state; the check runs
before any clamping, so the result does not depend on purchase_amount at all. -/
theorem spend_points_insufficient (s : DB) (uid : Nat) (pts : Int) (amt : Option ℚ)
    (u : User) (hf : findByUserId s uid = some u) (hlt : u.current_points < pts) :
    spend_points s uid pts amt = (Except.ok (false, u.current_points, 0), s) := by
  simp [spend_points, hf, hlt]

/-- C2 witness: an account with balance 100 asked to spend 200 points. -/
theorem spend_points_insufficient_witness :
    spend_points dbC2 1 200 none = (Except.ok (false, 100, 0), dbC2) :=
  spend_points_insufficient dbC2 1 200 none
    ⟨1, 7, none, none, none, 0, 100, 100, some "001-c4c", true⟩ rfl (by decide)

/-- C3 counterexample: with balance 1000, a request of 6000 points against a
purchase of 1000.00 does NOT clamp down to 1000 points spent; the insufficient-
balance check fires first and the call fails with the balance unchanged. -/
theorem redeem_clamp_counterexample :
    spend_points dbC3 1 6000 (some 1000) = (Except.ok (false, 1000, 0), dbC3) ∧
    ∀ (nb : Int) (d : ℚ) (s' : DB),
      spend_points dbC3 1 6000 (some 1000) ≠ (Except.ok (true, nb, d), s') := by
  have h1 : spend_points dbC3 1 6000 (some 1000) =
      (Except.ok (false, 1000, 0), dbC3) := rfl
  refine ⟨h1, ?_⟩
  intro nb d s' h
  rw [h1] at h
  simp at h

/-- C3 (amended): the request of 6000 points against balance 1000 fails with
insufficient balance before any clamping (see the counterexample); the clamp bound
itself is max_points = int(1000 * 50 / 100 / 0.01) = 50000 (not 5000), and for any
request within the balance made against a truthy purchase amount the call succeeds
and the returned discount never exceeds max_discount = 50. -/
theorem spend_points_clamp_cap :
    pyInt ((1000 : ℚ) * max_discount / 100 / discount_per_point) = 50000 ∧
    ∀ (s : DB) (uid : Nat) (pts : Int) (a : ℚ) (u : User),
      findByUserId s uid = some u → pts ≤ u.current_points → a ≠ 0 →
      ∃ (nb : Int) (d : ℚ),
        (spend_points s uid pts (some a)).1 = Except.ok (true, nb, d) ∧
        d ≤ max_discount := by
  constructor
  · exact pyInt_eval (by push_cast [max_discount, discount_per_point]; norm_num)
  · intro s uid pts a u hf hge ha
    refine ⟨_, _, spend_points_fst_success s uid pts (some a) u hf hge, ?_⟩
    have htr : amtTruthy (some a) = true := by simp [amtTruthy, ha]
    simp only [discountFor, htr, if_true]
    exact min_le_right _ _

/-- C3 witness: with balance 1000, requesting 1000 points against a purchase of
1000.00 succeeds with a discount within the cap. -/
theorem spend_points_clamp_cap_witness :
    pyInt ((1000 : ℚ) * max_discount / 100 / discount_per_point) = 50000 ∧
    ∃ (nb : Int) (d : ℚ),
      (spend_points dbC3 1 1000 (some 1000)).1 = Except.ok (true, nb, d) ∧
      d ≤ max_discount :=
  ⟨spend_points_clamp_cap.1,
   spend_points_clamp_cap.2 dbC3 1 1000 1000
     ⟨1, 7, none, none, none, 0, 1000, 1000, some "001-c4c", true⟩ rfl (by decide)
     (by norm_num)⟩

/-- C4 (amended): when the extraction pass completes, a falsy (missing) client code
or total yields an ignored result with a diagnostic reason and an unchanged state;
but a located total that fails float() yields a result with status error — not
ignored — contradicting the original claim, and no positivity check exists. -/
theorem webhook_missing_fields_ignored (data : JVal) (s : DB) (total qr : JVal)
    (hext : extractFields data = Except.ok (total, qr)) :
    (truthy qr = false ∨ truthy total = false →
      evotor_webhook data s = (WebhookResult.ignored "Missing QR code or total", s)) ∧
    (truthy qr = true → truthy total = true → pyFloat total = Except.error () →
      evotor_webhook data s = (WebhookResult.error "Invalid total format", s)) := by
  constructor
  · intro h
    rcases h with h | h <;> simp [evotor_webhook, hext, h]
  · intro hq ht hp
    simp [evotor_webhook, hext, hq, ht, hp]

/-- C4 witness: the empty payload is ignored; the payload with total "abc" produces
the error status. -/
theorem webhook_missing_fields_ignored_witness :
    evotor_webhook payloadC4empty initDB =
      (WebhookResult.ignored "Missing QR code or total", initDB) ∧
    evotor_webhook payloadC4 initDB =
      (WebhookResult.error "Invalid total format", initDB) :=
  ⟨(webhook_missing_fields_ignored payloadC4empty initDB JVal.null JVal.null rfl).1
     (Or.inl rfl),
   (webhook_missing_fields_ignored payloadC4 initDB (JVal.str "abc")
     (JVal.str "001-c4c") rfl).2 rfl rfl rfl⟩

/-- C4 counterexample: a payload whose located amount "abc" does not parse is
answered with status error, not with an ignored result. -/
theorem webhook_unparseable_total_counterexample :
    (evotor_webhook payloadC4 initDB).1 = WebhookResult.error "Invalid total format" ∧
    ∀ msg : String, (evotor_webhook payloadC4 initDB).1 ≠ WebhookResult.ignored msg := by
  have h1 : (evotor_webhook payloadC4 initDB).1 =
      WebhookResult.error "Invalid total format" := rfl
  refine ⟨h1, ?_⟩
  intro msg h
  rw [h1] at h
  simp at h

/-- C5: registering the same telegram_id twice returns the same (user_id, qr_code)
pair both times, the second call leaves the whole state unchanged, and exactly one
registration-bonus transaction exists for the account afterwards. -/
theorem add_user_idempotent (s : DB) (tid : Int) (n p g n2 p2 g2 : Option String)
    (h1 : findByTelegramId s tid = none)
    (h2 : ∀ t ∈ s.txns, t.user_id ≠ s.next_user_id) :
    (add_user (add_user s tid n p g).2 tid n2 p2 g2).1 = (add_user s tid n p g).1 ∧
    (add_user (add_user s tid n p g).2 tid n2 p2 g2).2 = (add_user s tid n p g).2 ∧
    ((add_user (add_user s tid n p g).2 tid n2 p2 g2).2.txns.filter fun t =>
        t.user_id == (add_user s tid n p g).1.1 && t.type == "bonus").length = 1 := by
  have hres1 : (add_user s tid n p g).1 =
      (s.next_user_id, generate_qr_code s.next_user_id) := by
    simp [add_user, h1]
  have husers : (add_user s tid n p g).2.users = s.users ++
      [{ user_id := s.next_user_id, telegram_id := tid,
         name := n, phone := p, gender := g, total_purchases := 0,
         total_points := 0, current_points := welcome_bonus,
         qr_code := some (generate_qr_code s.next_user_id), is_active := true }] := by
    simp [add_user, h1]
  have htxns : (add_user s tid n p g).2.txns = s.txns ++
      [{ user_id := s.next_user_id, type := "bonus", amount := none,
         points_change := welcome_bonus }] := by
    simp [add_user, h1]
  have hfind2 : findByTelegramId (add_user s tid n p g).2 tid =
      some { user_id := s.next_user_id, telegram_id := tid,
             name := n, phone := p, gender := g, total_purchases := 0,
             total_points := 0, current_points := welcome_bonus,
             qr_code := some (generate_qr_code s.next_user_id), is_active := true } := by
    show (add_user s tid n p g).2.users.find? (fun v => v.telegram_id == tid) = _
    rw [husers, List.find?_append]
    have h1' : s.users.find? (fun v => v.telegram_id == tid) = none := h1
    rw [h1']
    simp
  have hsecond : add_user (add_user s tid n p g).2 tid n2 p2 g2 =
      ((s.next_user_id, generate_qr_code s.next_user_id), (add_user s tid n p g).2) := by
    set S1 := (add_user s tid n p g).2 with hS1
    simp [add_user, hfind2, pyOrStr_generated]
  refine ⟨?_, ?_, ?_⟩
  · rw [hsecond, hres1]
  · rw [hsecond]
  · rw [hsecond, hres1, htxns]
    have hnil : (s.txns.filter fun t =>
        t.user_id == s.next_user_id && t.type == "bonus") = [] := by
      rw [List.filter_eq_nil_iff]
      intro t ht
      simp [h2 t ht]
    simp [List.filter_append, hnil]

/-- C5 witness: registering twice on a fresh database. -/
theorem add_user_idempotent_witness :
    (add_user (add_user initDB 7 (some "A") none none).2 7 none none none).1 =
      (add_user initDB 7 (some "A") none none).1 ∧
    (add_user (add_user initDB 7 (some "A") none none).2 7 none none none).2 =
      (add_user initDB 7 (some "A") none none).2 ∧
    ((add_user (add_user initDB 7 (some "A") none none).2 7 none none none).2.txns.filter
        fun t => t.user_id == (add_user initDB 7 (some "A") none none).1.1 &&
          t.type == "bonus").length = 1 :=
  add_user_idempotent initDB 7 (some "A") none none none none none rfl
    (by intro t ht; simp [initDB] at ht)

/-- C6 evidence: add_purchase on an id with no account row does not fail with a
NotFound signal and does not leave the ledger untouched: the UPDATE touches zero
rows, a purchase transaction referencing the nonexistent account is inserted and
committed (against the declared foreign key), and only the final balance read
raises; on an inactive account the purchase is applied normally instead of being
rejected. -/
theorem add_purchase_missing_account_behavior :
    ((add_purchase initDB 1 100).1 = Except.error () ∧
     (add_purchase initDB 1 100).2.txns =
       [{ user_id := 1, type := "purchase", amount := some 100, points_change := 5 }] ∧
     (add_purchase initDB 1 100).2.users = []) ∧
    ((add_purchase dbC6 1 100).1 = Except.ok (5, 105) ∧
     (add_purchase dbC6 1 100).2.users =
       [⟨1, 7, none, none, none, 100, 105, 105, some "001-c4c", false⟩]) := by
  have hpy : pyInt ((100 : ℚ) * points_per_purchase) = 5 :=
    pyInt_eval (by push_cast [points_per_purchase]; norm_num)
  refine ⟨⟨rfl, ?_, rfl⟩, ?_, ?_⟩
  · norm_num [add_purchase, initDB, hpy]
  · norm_num [add_purchase, dbC6, updateWhere, findByUserId, hpy]
  · norm_num [add_purchase, dbC6, updateWhere, hpy]

/-- C7: for a strictly positive amount, add_purchase earns
int(amount * points_per_purchase) points — equal to the floor, i.e. rounding toward
zero — returns (earned, balance + earned), adds the amount to total_purchases and
the earned points to total_points and current_points, and appends the purchase
transaction. -/
theorem add_purchase_earn_correct (s : DB) (uid : Nat) (amount : ℚ) (u : User)
    (hpos : 0 < amount) (hf : findByUserId s uid = some u) :
    pyInt (amount * points_per_purchase) = ⌊amount * points_per_purchase⌋ ∧
    (add_purchase s uid amount).1 =
      Except.ok (pyInt (amount * points_per_purchase),
        u.current_points + pyInt (amount * points_per_purchase)) ∧
    (add_purchase s uid amount).2.txns =
      s.txns ++ [{ user_id := uid, type := "purchase", amount := some amount,
                   points_change := pyInt (amount * points_per_purchase) }] ∧
    findByUserId (add_purchase s uid amount).2 uid =
      some { u with
             total_purchases := u.total_purchases + amount,
             total_points := u.total_points + pyInt (amount * points_per_purchase),
             current_points := u.current_points + pyInt (amount * points_per_purchase) } := by
  have hf' : s.users.find? (fun v => v.user_id == uid) = some u := hf
  have hfind2 : (updateWhere s.users (fun v => v.user_id == uid) fun v =>
      { v with total_purchases := v.total_purchases + amount,
               total_points := v.total_points + pyInt (amount * points_per_purchase),
               current_points := v.current_points + pyInt (amount * points_per_purchase)
        }).find? (fun v => v.user_id == uid) =
      some { u with
             total_purchases := u.total_purchases + amount,
             total_points := u.total_points + pyInt (amount * points_per_purchase),
             current_points := u.current_points + pyInt (amount * points_per_purchase)
        } := by
    rw [find?_updateWhere s.users uid
      (fun v =>
        { v with total_purchases := v.total_purchases + amount,
                 total_points := v.total_points + pyInt (amount * points_per_purchase),
                 current_points :=
                   v.current_points + pyInt (amount * points_per_purchase) })
      fun v => rfl]
    rw [hf']
    rfl
  refine ⟨pyInt_eq_floor (mul_nonneg hpos.le (by norm_num [points_per_purchase])),
    ?_, ?_, ?_⟩
  · simp [add_purchase, findByUserId, hfind2]
  · simp [add_purchase]
  · show (add_purchase s uid amount).2.users.find? (fun v => v.user_id == uid) = _
    simp only [add_purchase]
    exact hfind2

/-- C7 witness: recording a purchase of 1500.00 on an account with balance 0 earns
75 points, yields balance 75, and raises total_purchases by 1500.00. -/
theorem add_purchase_earn_correct_witness :
    (add_purchase dbC7 1 1500).1 = Except.ok (75, 75) ∧
    (add_purchase dbC7 1 1500).2.users =
      [⟨1, 7, none, none, none, 1500, 75, 75, some "001-c4c", true⟩] := by
  have hpy : pyInt ((1500 : ℚ) * points_per_purchase) = 75 :=
    pyInt_eval (by push_cast [points_per_purchase]; norm_num)
  have h := add_purchase_earn_correct dbC7 1 1500
    ⟨1, 7, none, none, none, 0, 0, 0, some "001-c4c", true⟩ (by norm_num) rfl
  constructor
  · exact h.2.1.trans (by simp [hpy])
  · norm_num [add_purchase, dbC7, updateWhere, hpy]

/-- C8: generate_qr_code is a pure deterministic function — equal ids give equal
codes — and for any two distinct ids in the sample 1..10000 the codes differ,
because the decimal segment before the dash recovers the id exactly. -/
theorem generate_qr_code_deterministic_distinct (id n m : Nat) (_hid : 0 < id)
    (_hn1 : 1 ≤ n) (_hn2 : n ≤ 10000) (_hm1 : 1 ≤ m) (_hm2 : m ≤ 10000) (hnm : n ≠ m) :
    generate_qr_code id = generate_qr_code id ∧
    generate_qr_code n ≠ generate_qr_code m :=
  ⟨rfl, fun h => hnm (generate_qr_code_inj h)⟩

/-- C8 witness: ids 3 and 5 from the sample. -/
theorem generate_qr_code_deterministic_distinct_witness :
    generate_qr_code 3 = generate_qr_code 3 ∧
    generate_qr_code 3 ≠ generate_qr_code 5 :=
  generate_qr_code_deterministic_distinct 3 3 5 (by decide) (by decide) (by decide)
    (by decide) (by decide) (by decide)

/-- C9: with no purchase amount and a request within the balance, spend_points
applies no clamp and returns the uncapped discount points * discount_per_point; in
particular a request of 6000 points returns a discount of 60 percent, exceeding
max_discount = 50. -/
theorem spend_points_no_amount_uncapped :
    (∀ (s : DB) (uid : Nat) (pts : Int) (u : User),
        findByUserId s uid = some u → pts ≤ u.current_points →
        (spend_points s uid pts none).1 =
          Except.ok (true, u.current_points - pts, (pts : ℚ) * discount_per_point)) ∧
    ∃ (s : DB) (uid : Nat) (pts nb : Int) (d : ℚ),
      (spend_points s uid pts none).1 = Except.ok (true, nb, d) ∧ max_discount < d := by
  constructor
  · intro s uid pts u hf hge
    have h1 := spend_points_fst_success s uid pts none u hf hge
    have hcl : clampedPoints none pts = pts := by simp [clampedPoints, amtTruthy]
    have hd : discountFor none pts = (pts : ℚ) * discount_per_point := by
      simp [discountFor, amtTruthy]
    rw [h1, hcl, hd]
  · refine ⟨dbC9, 1, 6000, 0, 60, ?_, by norm_num [max_discount]⟩
    have h := spend_points_fst_success dbC9 1 6000 none
      ⟨1, 7, none, none, none, 0, 6000, 6000, some "001-c4c", true⟩ rfl (by decide)
    have hcl : clampedPoints none 6000 = 6000 := by simp [clampedPoints, amtTruthy]
    have hd : discountFor none (6000 : Int) = 60 := by
      rw [discountFor]
      simp [amtTruthy]
      push_cast [discount_per_point]
      norm_num
    rw [h, hcl, hd]
    norm_num

/-- C9 witness: spending 100 of 6000 points with no purchase amount returns the
unclamped discount 1 percent. -/
theorem spend_points_no_amount_uncapped_witness :
    (spend_points dbC9 1 100 none).1 = Except.ok (true, 5900, 1) := by
  have h := spend_points_no_amount_uncapped.1 dbC9 1 100
    ⟨1, 7, none, none, none, 0, 6000, 6000, some "001-c4c", true⟩ rfl (by decide)
  exact h.trans (by push_cast [discount_per_point]; norm_num)

/-- C10: a payload whose extracted total is the falsy number 0 is treated exactly
like a missing total — the handler answers ignored and performs no ledger
mutation. -/
theorem webhook_zero_total_ignored (data : JVal) (s : DB) (total qr : JVal)
    (hext : extractFields data = Except.ok (total, qr)) (hz : total = JVal.num 0) :
    evotor_webhook data s = (WebhookResult.ignored "Missing QR code or total", s) := by
  subst hz
  simp [evotor_webhook, hext, truthy]

/-- C10 witness: a payload carrying amount 0 and a client code. -/
theorem webhook_zero_total_ignored_witness :
    evotor_webhook payloadC10 initDB =
      (WebhookResult.ignored "Missing QR code or total", initDB) :=
  webhook_zero_total_ignored payloadC10 initDB (JVal.num 0) (JVal.str "x") rfl rfl
